import Mathlib

/-!
# Non-secure driver interface of the PSA architecture tests

Shallow embedding of `pal_driver_ns_intf.c` (target `fvp_mps2_cm4_mbedos`).
Every operation of that file marshals its arguments into request / response
vectors, connects to a secure service, issues one call and releases the handle.

The transport (the PSA client API behind `pal_ipc_connect`, `pal_ipc_call`,
`pal_ipc_close` and `psa_close`) is a parameter: an arbitrary deterministic
state machine.  Each primitive appends one event to a trace, so that the
order and the arguments of the primitives an operation issues can be observed.
-/

namespace PalDriverNs

/-! ## Types of the C interface -/

/-- The C type `psa_handle_t` (a signed 32-bit integer). -/
abbrev psa_handle_t := Int

/-- The C type `psa_status_t` (a signed 32-bit integer). -/
abbrev psa_status_t := Int

/-- The success status of the PSA client API (declared in a header that is not
part of the file; its value is never used by the general theorems). -/
def PSA_SUCCESS : psa_status_t := 0

/-- Largest value of the C type `int` on the 32-bit target. -/
def INT_MAX : Int := 2147483647

/-- Two's complement reduction of a mathematical integer to the C type `int`:
the value the 32-bit target leaves in an `int` after an addition. -/
def wrap_int (x : Int) : Int := (x + 2147483648) % 4294967296 - 2147483648

/-- Conversion of an `int` to `size_t` (32 bits on the target). -/
def to_size_t (x : Int) : Nat := (x % 4294967296).toNat

/-- The enumeration `pal_status_t`: the two results an operation returns. -/
inductive pal_status_t where
  | PAL_STATUS_SUCCESS
  | PAL_STATUS_ERROR
  deriving DecidableEq, Repr

/-- The enumeration `uart_fn_type_t`. -/
inductive uart_fn_type_t where
  | UART_INIT
  | UART_PRINT
  deriving DecidableEq, Repr

/-- The enumeration `wd_fn_type_t` (the three selectors the file uses). -/
inductive wd_fn_type_t where
  | WD_INIT_SEQ
  | WD_ENABLE_SEQ
  | WD_DISABLE_SEQ
  deriving DecidableEq, Repr

/-- The enumeration `nvmem_fn_type_t`. -/
inductive nvmem_fn_type_t where
  | NVMEM_READ
  | NVMEM_WRITE
  deriving DecidableEq, Repr

/-- The service identifiers of `pal_sid.h` that the file connects to. -/
inductive Sid where
  | DRIVER_UART_SID
  | DRIVER_WATCHDOG_SID
  | DRIVER_NVMEM_SID
  deriving DecidableEq, Repr

/-- The structure `wd_param_t`, with the four fields the file assigns. -/
structure wd_param_t where
  wd_fn_type : wd_fn_type_t
  wd_base_addr : Nat
  wd_time_us : Nat
  wd_timer_tick_us : Nat
  deriving DecidableEq, Repr

/-- The structure `nvmem_param_t`, with the four fields the file assigns;
`size` is an `int`. -/
structure nvmem_param_t where
  nvmem_fn_type : nvmem_fn_type_t
  base : Nat
  offset : Nat
  size : Int
  deriving DecidableEq, Repr

/-- Modelled from the spec: `sizeof(uart_fn_type_t)`; the header is missing,
the spec calls the tag "a 4-byte unsigned operation tag". -/
def sizeof_uart_fn_type_t : Nat := 4

/-- Size of a `uint32_t` object. -/
def sizeof_uint32_t : Nat := 4

/-- Modelled from the spec: `sizeof(wd_param_t)`, a fixed-size parameter
structure of a 4-byte tag and three 4-byte words. -/
def sizeof_wd_param_t : Nat := 16

/-- Modelled from the spec: `sizeof(nvmem_param_t)`, a fixed-size parameter
structure of a 4-byte tag and three 4-byte words. -/
def sizeof_nvmem_param_t : Nat := 16

/-- What the `base` pointer of a request vector points at.  `bytes b` is a
pointer into caller memory that holds the bytes `b` from that address on. -/
inductive Buf where
  | null
  | uart_fn (v : uart_fn_type_t)
  | u32 (v : Nat)
  | wd_param (p : wd_param_t)
  | nvmem_param (p : nvmem_param_t)
  | bytes (b : List Nat)
  deriving DecidableEq, Repr

/-- The descriptor `psa_invec`: a read-only buffer and its length. -/
structure psa_invec where
  base : Buf
  len : Nat
  deriving DecidableEq, Repr

/-- The descriptor `psa_outvec`: a writable buffer (its present contents) and
its capacity. -/
structure psa_outvec where
  base : List Nat
  len : Nat
  deriving DecidableEq, Repr

/-! ## Transport and trace -/

/-- One invocation of a transport primitive, with its arguments and, for
`connect` and `call`, the value the transport returned.  `close` is
`pal_ipc_close`; `psa_close` is the PSA client function called directly. -/
inductive Event where
  | connect (sid : Sid) (version : Nat) (ret : psa_handle_t)
  | call (handle : psa_handle_t) (in_vec : List psa_invec) (in_len : Nat)
      (out_vec : Option (List psa_outvec)) (out_len : Nat) (ret : psa_status_t)
  | close (handle : psa_handle_t)
  | psa_close (handle : psa_handle_t)
  deriving DecidableEq, Repr

/-- The behaviour of the transport: a deterministic state machine over an
arbitrary state.  `call` returns the status and the contents of the response
buffers after the call (one entry per response vector). -/
structure Transport (σ : Type) where
  connect : Sid → Nat → σ → psa_handle_t × σ
  call : psa_handle_t → List psa_invec → Nat → Option (List psa_outvec) → Nat → σ →
    (psa_status_t × List (List Nat)) × σ
  close : psa_handle_t → σ → σ

/-- The state an operation runs in: the transport state and the trace of the
primitives invoked so far, oldest first. -/
structure World (σ : Type) where
  st : σ
  trace : List Event

/-- A world in which no primitive has been invoked yet. -/
def World.init {σ : Type} (s : σ) : World σ := ⟨s, []⟩

/-- Modelled from the spec: `pal_ipc_connect` (defined outside the file), the
transport primitive `connect(service_id, version) -> handle`. -/
def pal_ipc_connect {σ : Type} (T : Transport σ) (sid : Sid) (version : Nat)
    (w : World σ) : psa_handle_t × World σ :=
  let r := T.connect sid version w.st
  (r.1, ⟨r.2, w.trace ++ [Event.connect sid version r.1]⟩)

/-- Modelled from the spec: `pal_ipc_call` (defined outside the file), the
transport primitive `call(handle, request_vectors, response_vectors) -> status`.
Returns the status, the response buffers after the call, and the new world. -/
def pal_ipc_call {σ : Type} (T : Transport σ) (handle : psa_handle_t)
    (in_vec : List psa_invec) (in_len : Nat) (out_vec : Option (List psa_outvec))
    (out_len : Nat) (w : World σ) : psa_status_t × List (List Nat) × World σ :=
  let r := T.call handle in_vec in_len out_vec out_len w.st
  (r.1.1, r.1.2,
    ⟨r.2, w.trace ++ [Event.call handle in_vec in_len out_vec out_len r.1.1]⟩)

/-- Modelled from the spec: `pal_ipc_close` (defined outside the file), the
transport primitive `close(handle)`. -/
def pal_ipc_close {σ : Type} (T : Transport σ) (handle : psa_handle_t)
    (w : World σ) : World σ :=
  ⟨T.close handle w.st, w.trace ++ [Event.close handle]⟩

/-- Modelled from the spec: `psa_close` of the PSA client API, the transport
primitive `close(handle)` reached without the `pal_ipc_close` wrapper. -/
def psa_close {σ : Type} (T : Transport σ) (handle : psa_handle_t)
    (w : World σ) : World σ :=
  ⟨T.close handle w.st, w.trace ++ [Event.psa_close handle]⟩

/-! ## The operations of `pal_driver_ns_intf.c` -/

/-- The function `pal_uart_init_ns`. -/
def pal_uart_init_ns {σ : Type} (T : Transport σ) (uart_base_addr : Nat)
    (w : World σ) : pal_status_t × World σ :=
  let uart_fn := uart_fn_type_t.UART_INIT
  let data : List psa_invec :=
    [⟨Buf.uart_fn uart_fn, sizeof_uart_fn_type_t⟩,
     ⟨Buf.u32 uart_base_addr, sizeof_uint32_t⟩,
     ⟨Buf.null, 0⟩]
  let c := pal_ipc_connect T Sid.DRIVER_UART_SID 0 w
  let print_handle := c.1
  if print_handle < 0 then
    (pal_status_t.PAL_STATUS_ERROR, c.2)
  else
    let r := pal_ipc_call T print_handle data 3 none 0 c.2
    let status_of_call := r.1
    if status_of_call ≠ PSA_SUCCESS then
      (pal_status_t.PAL_STATUS_ERROR, r.2.2)
    else
      (pal_status_t.PAL_STATUS_SUCCESS, pal_ipc_close T print_handle r.2.2)

/-- The counting loop of `pal_print_ns`:
`while (*p != 0) { string_len++; p++; }`.  The list is the memory from `p`
on; the end of the list reads as the terminator. -/
def strlen_loop : List Nat → Int → Int
  | [], string_len => string_len
  | c :: p, string_len =>
    if c ≠ 0 then strlen_loop p (wrap_int (string_len + 1)) else string_len

/-- The value of `string_len` when the loop of `pal_print_ns` is left. -/
def pal_print_ns_string_len (str : List Nat) : Int := strlen_loop str 0

/-- The function `pal_print_ns`. -/
def pal_print_ns {σ : Type} (T : Transport σ) (str : List Nat) (data : Nat)
    (w : World σ) : pal_status_t × World σ :=
  let string_len := pal_print_ns_string_len str
  let status := pal_status_t.PAL_STATUS_SUCCESS
  let uart_fn := uart_fn_type_t.UART_PRINT
  let data1 : List psa_invec :=
    [⟨Buf.uart_fn uart_fn, sizeof_uart_fn_type_t⟩,
     ⟨Buf.bytes str, to_size_t (wrap_int (string_len + 1))⟩,
     ⟨Buf.u32 data, sizeof_uint32_t⟩]
  let c := pal_ipc_connect T Sid.DRIVER_UART_SID 0 w
  let print_handle := c.1
  if print_handle < 0 then
    (pal_status_t.PAL_STATUS_ERROR, c.2)
  else
    let r := pal_ipc_call T print_handle data1 3 none 0 c.2
    let status_of_call := r.1
    let status :=
      if status_of_call ≠ PSA_SUCCESS then pal_status_t.PAL_STATUS_ERROR else status
    (status, pal_ipc_close T print_handle r.2.2)

/-- The function `pal_wd_timer_init_ns`. -/
def pal_wd_timer_init_ns {σ : Type} (T : Transport σ) (base_addr time_us timer_tick_us : Nat)
    (w : World σ) : pal_status_t × World σ :=
  let wd_param : wd_param_t :=
    ⟨wd_fn_type_t.WD_INIT_SEQ, base_addr, time_us, timer_tick_us⟩
  let invec : List psa_invec := [⟨Buf.wd_param wd_param, sizeof_wd_param_t⟩]
  let c := pal_ipc_connect T Sid.DRIVER_WATCHDOG_SID 0 w
  let handle := c.1
  if handle < 0 then
    (pal_status_t.PAL_STATUS_ERROR, c.2)
  else
    let r := pal_ipc_call T handle invec 1 none 0 c.2
    let status_of_call := r.1
    if status_of_call ≠ PSA_SUCCESS then
      (pal_status_t.PAL_STATUS_ERROR, pal_ipc_close T handle r.2.2)
    else
      (pal_status_t.PAL_STATUS_SUCCESS, pal_ipc_close T handle r.2.2)

/-- The function `pal_wd_timer_enable_ns`. -/
def pal_wd_timer_enable_ns {σ : Type} (T : Transport σ) (base_addr : Nat)
    (w : World σ) : pal_status_t × World σ :=
  let wd_param : wd_param_t := ⟨wd_fn_type_t.WD_ENABLE_SEQ, base_addr, 0, 0⟩
  let invec : List psa_invec := [⟨Buf.wd_param wd_param, sizeof_wd_param_t⟩]
  let c := pal_ipc_connect T Sid.DRIVER_WATCHDOG_SID 0 w
  let handle := c.1
  if handle < 0 then
    (pal_status_t.PAL_STATUS_ERROR, c.2)
  else
    let r := pal_ipc_call T handle invec 1 none 0 c.2
    let status_of_call := r.1
    if status_of_call ≠ PSA_SUCCESS then
      (pal_status_t.PAL_STATUS_ERROR, pal_ipc_close T handle r.2.2)
    else
      (pal_status_t.PAL_STATUS_SUCCESS, pal_ipc_close T handle r.2.2)

/-- The function `pal_wd_timer_disable_ns`. -/
def pal_wd_timer_disable_ns {σ : Type} (T : Transport σ) (base_addr : Nat)
    (w : World σ) : pal_status_t × World σ :=
  let wd_param : wd_param_t := ⟨wd_fn_type_t.WD_DISABLE_SEQ, base_addr, 0, 0⟩
  let invec : List psa_invec := [⟨Buf.wd_param wd_param, sizeof_wd_param_t⟩]
  let c := pal_ipc_connect T Sid.DRIVER_WATCHDOG_SID 0 w
  let handle := c.1
  if handle < 0 then
    (pal_status_t.PAL_STATUS_ERROR, c.2)
  else
    let r := pal_ipc_call T handle invec 1 none 0 c.2
    let status_of_call := r.1
    if status_of_call ≠ PSA_SUCCESS then
      (pal_status_t.PAL_STATUS_ERROR, pal_ipc_close T handle r.2.2)
    else
      (pal_status_t.PAL_STATUS_SUCCESS, pal_ipc_close T handle r.2.2)

/-- The function `pal_nvmem_read_ns`.  The second component of the result is
the contents of `buffer` when the function returns. -/
def pal_nvmem_read_ns {σ : Type} (T : Transport σ) (base offset : Nat) (buffer : List Nat)
    (size : Int) (w : World σ) : pal_status_t × List Nat × World σ :=
  let nvmem_param : nvmem_param_t := ⟨nvmem_fn_type_t.NVMEM_READ, base, offset, size⟩
  let invec : List psa_invec := [⟨Buf.nvmem_param nvmem_param, sizeof_nvmem_param_t⟩]
  let outvec : List psa_outvec := [⟨buffer, to_size_t size⟩]
  let c := pal_ipc_connect T Sid.DRIVER_NVMEM_SID 0 w
  let handle := c.1
  if handle < 0 then
    (pal_status_t.PAL_STATUS_ERROR, buffer, c.2)
  else
    let r := pal_ipc_call T handle invec 1 (some outvec) 1 c.2
    let status_of_call := r.1
    let buffer := r.2.1.headD buffer
    if status_of_call ≠ PSA_SUCCESS then
      (pal_status_t.PAL_STATUS_ERROR, buffer, pal_ipc_close T handle r.2.2)
    else
      (pal_status_t.PAL_STATUS_SUCCESS, buffer, psa_close T handle r.2.2)

/-- The function `pal_nvmem_write_ns`. -/
def pal_nvmem_write_ns {σ : Type} (T : Transport σ) (base offset : Nat) (buffer : List Nat)
    (size : Int) (w : World σ) : pal_status_t × World σ :=
  let nvmem_param : nvmem_param_t := ⟨nvmem_fn_type_t.NVMEM_WRITE, base, offset, size⟩
  let invec : List psa_invec :=
    [⟨Buf.nvmem_param nvmem_param, sizeof_nvmem_param_t⟩,
     ⟨Buf.bytes buffer, to_size_t size⟩]
  let c := pal_ipc_connect T Sid.DRIVER_NVMEM_SID 0 w
  let handle := c.1
  if handle < 0 then
    (pal_status_t.PAL_STATUS_ERROR, c.2)
  else
    let r := pal_ipc_call T handle invec 2 none 0 c.2
    let status_of_call := r.1
    if status_of_call ≠ PSA_SUCCESS then
      (pal_status_t.PAL_STATUS_ERROR, pal_ipc_close T handle r.2.2)
    else
      (pal_status_t.PAL_STATUS_SUCCESS, pal_ipc_close T handle r.2.2)

/-! ## The seven operations as one family -/

/-- An invocation of one of the seven IPC operations with its arguments. -/
inductive Op where
  | uart_init (uart_base_addr : Nat)
  | print (str : List Nat) (data : Nat)
  | wd_timer_init (base_addr time_us timer_tick_us : Nat)
  | wd_timer_enable (base_addr : Nat)
  | wd_timer_disable (base_addr : Nat)
  | nvmem_read (base offset : Nat) (buffer : List Nat) (size : Int)
  | nvmem_write (base offset : Nat) (buffer : List Nat) (size : Int)
  deriving DecidableEq, Repr

/-- Runs an operation: the returned status and the world it leaves. -/
def Op.run {σ : Type} (T : Transport σ) : Op → World σ → pal_status_t × World σ
  | Op.uart_init a, w => pal_uart_init_ns T a w
  | Op.print str data, w => pal_print_ns T str data w
  | Op.wd_timer_init b t k, w => pal_wd_timer_init_ns T b t k w
  | Op.wd_timer_enable b, w => pal_wd_timer_enable_ns T b w
  | Op.wd_timer_disable b, w => pal_wd_timer_disable_ns T b w
  | Op.nvmem_read b o buf n, w =>
    let r := pal_nvmem_read_ns T b o buf n w
    (r.1, r.2.2)
  | Op.nvmem_write b o buf n, w => pal_nvmem_write_ns T b o buf n w

/-- The status an operation returns when started in transport state `s`. -/
def Op.status {σ : Type} (T : Transport σ) (op : Op) (s : σ) : pal_status_t :=
  (op.run T (World.init s)).1

/-- The transport primitives an operation invokes when started in transport
state `s`, in order. -/
def Op.trace {σ : Type} (T : Transport σ) (op : Op) (s : σ) : List Event :=
  (op.run T (World.init s)).2.trace

/-! ## Observations on traces -/

/-- The service each operation addresses. -/
def Op.sid : Op → Sid
  | Op.uart_init _ => Sid.DRIVER_UART_SID
  | Op.print _ _ => Sid.DRIVER_UART_SID
  | Op.wd_timer_init _ _ _ => Sid.DRIVER_WATCHDOG_SID
  | Op.wd_timer_enable _ => Sid.DRIVER_WATCHDOG_SID
  | Op.wd_timer_disable _ => Sid.DRIVER_WATCHDOG_SID
  | Op.nvmem_read _ _ _ _ => Sid.DRIVER_NVMEM_SID
  | Op.nvmem_write _ _ _ _ => Sid.DRIVER_NVMEM_SID

/-- Whether the operation is `pal_uart_init_ns`. -/
def Op.isUartInit : Op → Bool
  | Op.uart_init _ => true
  | _ => false

/-- Position of a primitive in the connect / call / close order. -/
def Event.phase : Event → Nat
  | Event.connect _ _ _ => 0
  | Event.call _ _ _ _ _ _ => 1
  | Event.close _ => 2
  | Event.psa_close _ => 2

/-- Whether the event is an invocation of `connect`. -/
def Event.isConnect : Event → Bool
  | Event.connect _ _ _ => true
  | _ => false

/-- Whether the event is an invocation of `call`. -/
def Event.isCall : Event → Bool
  | Event.call _ _ _ _ _ _ => true
  | _ => false

/-- Whether the event is an invocation of the close primitive, through
`pal_ipc_close` or through `psa_close`. -/
def Event.isClose : Event → Bool
  | Event.close _ => true
  | Event.psa_close _ => true
  | _ => false

/-- Number of `connect` invocations in a trace. -/
def connectCount (tr : List Event) : Nat := tr.countP Event.isConnect

/-- Number of `call` invocations in a trace. -/
def callCount (tr : List Event) : Nat := tr.countP Event.isCall

/-- Number of close invocations in a trace. -/
def closeCount (tr : List Event) : Nat := tr.countP Event.isClose

/-- The service, version and returned handle of every `connect` of a trace. -/
def connects (tr : List Event) : List (Sid × Nat × psa_handle_t) :=
  tr.filterMap fun e =>
    match e with
    | Event.connect sid v h => some (sid, v, h)
    | _ => none

/-- The statuses returned by the `call` invocations of a trace. -/
def callReturns (tr : List Event) : List psa_status_t :=
  tr.filterMap fun e =>
    match e with
    | Event.call _ _ _ _ _ st => some st
    | _ => none

/-- The handles passed to the `call` invocations of a trace. -/
def callHandles (tr : List Event) : List psa_handle_t :=
  tr.filterMap fun e =>
    match e with
    | Event.call h _ _ _ _ _ => some h
    | _ => none

/-- The handles passed to the close invocations of a trace. -/
def closeHandles (tr : List Event) : List psa_handle_t :=
  tr.filterMap fun e =>
    match e with
    | Event.close h => some h
    | Event.psa_close h => some h
    | _ => none

/-- The vector arguments of one `call`: request array and count, response
array (`none` for a null pointer) and count. -/
structure Request where
  in_vec : List psa_invec
  in_len : Nat
  out_vec : Option (List psa_outvec)
  out_len : Nat
  deriving DecidableEq, Repr

/-- The vector arguments of the `call` invocations of a trace. -/
def requests (tr : List Event) : List Request :=
  tr.filterMap fun e =>
    match e with
    | Event.call _ iv n ov m _ => some ⟨iv, n, ov, m⟩
    | _ => none

/-- An operation discriminator of one of the three services. -/
inductive Tag where
  | uart (t : uart_fn_type_t)
  | wd (t : wd_fn_type_t)
  | nvmem (t : nvmem_fn_type_t)
  deriving DecidableEq, Repr

/-- The discriminator an object carries: a `uart_fn_type_t` object is one, a
`wd_param_t` carries it in `wd_fn_type`, an `nvmem_param_t` in
`nvmem_fn_type`. -/
def Buf.tag : Buf → Option Tag
  | Buf.uart_fn v => some (Tag.uart v)
  | Buf.wd_param p => some (Tag.wd p.wd_fn_type)
  | Buf.nvmem_param p => some (Tag.nvmem p.nvmem_fn_type)
  | _ => none

/-- Size of the object a vector points at, for the objects of fixed size. -/
def Buf.object_size : Buf → Option Nat
  | Buf.uart_fn _ => some sizeof_uart_fn_type_t
  | Buf.u32 _ => some sizeof_uint32_t
  | Buf.wd_param _ => some sizeof_wd_param_t
  | Buf.nvmem_param _ => some sizeof_nvmem_param_t
  | _ => none

/-- Size of the object that carries a discriminator: the tag itself for the
UART service, the parameter structure for the watchdog and NVMEM services. -/
def Tag.carrier_size : Tag → Nat
  | Tag.uart _ => sizeof_uart_fn_type_t
  | Tag.wd _ => sizeof_wd_param_t
  | Tag.nvmem _ => sizeof_nvmem_param_t

/-- The discriminator that belongs to each operation. -/
def Op.tag : Op → Tag
  | Op.uart_init _ => Tag.uart uart_fn_type_t.UART_INIT
  | Op.print _ _ => Tag.uart uart_fn_type_t.UART_PRINT
  | Op.wd_timer_init _ _ _ => Tag.wd wd_fn_type_t.WD_INIT_SEQ
  | Op.wd_timer_enable _ => Tag.wd wd_fn_type_t.WD_ENABLE_SEQ
  | Op.wd_timer_disable _ => Tag.wd wd_fn_type_t.WD_DISABLE_SEQ
  | Op.nvmem_read _ _ _ _ => Tag.nvmem nvmem_fn_type_t.NVMEM_READ
  | Op.nvmem_write _ _ _ _ => Tag.nvmem nvmem_fn_type_t.NVMEM_WRITE

/-- Number of elements of the request array each operation declares. -/
def Op.in_count : Op → Nat
  | Op.uart_init _ => 3
  | Op.print _ _ => 3
  | Op.wd_timer_init _ _ _ => 1
  | Op.wd_timer_enable _ => 1
  | Op.wd_timer_disable _ => 1
  | Op.nvmem_read _ _ _ _ => 1
  | Op.nvmem_write _ _ _ _ => 2

/-- Number of elements of the response array each operation declares (only
`pal_nvmem_read_ns` declares one). -/
def Op.out_count : Op → Nat
  | Op.nvmem_read _ _ _ _ => 1
  | _ => 0

/-- Number of descriptors in a response array; a null pointer holds none. -/
def out_vec_length : Option (List psa_outvec) → Nat
  | none => 0
  | some l => l.length

/-- The vector arguments each operation builds for its `call`: the arrays
`data`, `data1`, `invec`, `outvec` of the seven functions and the counts they
pass. -/
def Op.request : Op → Request
  | Op.uart_init a =>
    ⟨[⟨Buf.uart_fn uart_fn_type_t.UART_INIT, sizeof_uart_fn_type_t⟩,
      ⟨Buf.u32 a, sizeof_uint32_t⟩, ⟨Buf.null, 0⟩], 3, none, 0⟩
  | Op.print str data =>
    ⟨[⟨Buf.uart_fn uart_fn_type_t.UART_PRINT, sizeof_uart_fn_type_t⟩,
      ⟨Buf.bytes str, to_size_t (wrap_int (pal_print_ns_string_len str + 1))⟩,
      ⟨Buf.u32 data, sizeof_uint32_t⟩], 3, none, 0⟩
  | Op.wd_timer_init b t k =>
    ⟨[⟨Buf.wd_param ⟨wd_fn_type_t.WD_INIT_SEQ, b, t, k⟩, sizeof_wd_param_t⟩], 1, none, 0⟩
  | Op.wd_timer_enable b =>
    ⟨[⟨Buf.wd_param ⟨wd_fn_type_t.WD_ENABLE_SEQ, b, 0, 0⟩, sizeof_wd_param_t⟩], 1, none, 0⟩
  | Op.wd_timer_disable b =>
    ⟨[⟨Buf.wd_param ⟨wd_fn_type_t.WD_DISABLE_SEQ, b, 0, 0⟩, sizeof_wd_param_t⟩], 1, none, 0⟩
  | Op.nvmem_read b o buf n =>
    ⟨[⟨Buf.nvmem_param ⟨nvmem_fn_type_t.NVMEM_READ, b, o, n⟩, sizeof_nvmem_param_t⟩], 1,
      some [⟨buf, to_size_t n⟩], 1⟩
  | Op.nvmem_write b o buf n =>
    ⟨[⟨Buf.nvmem_param ⟨nvmem_fn_type_t.NVMEM_WRITE, b, o, n⟩, sizeof_nvmem_param_t⟩,
      ⟨Buf.bytes buf, to_size_t n⟩], 2, none, 0⟩

/-- The answer of the transport to the `connect` of an operation started in
state `s`: the handle. -/
def Op.handle {σ : Type} (T : Transport σ) (op : Op) (s : σ) : psa_handle_t :=
  (T.connect op.sid 0 s).1

/-- The answer of the transport to the `call` of an operation started in
state `s`: the status `T.call` returns for the handle just obtained and the
vectors of the operation, in the state `T.connect` left. -/
def Op.call_status {σ : Type} (T : Transport σ) (op : Op) (s : σ) : psa_status_t :=
  (T.call (T.connect op.sid 0 s).1 op.request.in_vec op.request.in_len op.request.out_vec
    op.request.out_len (T.connect op.sid 0 s).2).1.1

/-- The close event an operation issues for handle `h` after its `call`
returned `st`: `pal_nvmem_read_ns` uses `psa_close` after a successful `call`,
every other path uses `pal_ipc_close`. -/
def Op.close_event (op : Op) (st : psa_status_t) (h : psa_handle_t) : Event :=
  match op with
  | Op.nvmem_read _ _ _ _ => if st ≠ PSA_SUCCESS then Event.close h else Event.psa_close h
  | _ => Event.close h

/-! ## Concrete transports used to exercise the theorems -/

/-- A transport that answers every `connect` with handle `h` and every `call`
with status `st`, and leaves response buffers as they are. -/
def constTransport (h : psa_handle_t) (st : psa_status_t) : Transport Unit where
  connect := fun _ _ _ => (h, ())
  call := fun _ _ _ _ _ _ => ((st, []), ())
  close := fun _ _ => ()

/-! ## A model of the secure NVMEM service -/

/-- Modelled from the spec: the state of the secure NVMEM service (its driver
partition is not part of the file): a byte store indexed by address, together
with the faults of the transport, `refuse k` telling whether the `k`-th
request (a `connect` or a `call`) is refused, `tick` counting the requests. -/
structure NvmemService where
  mem : Nat → Nat
  refuse : Nat → Bool
  tick : Nat

/-- Modelled from the spec: the byte store after `data` is written from
address `addr` on. -/
def nvmem_store_write (mem : Nat → Nat) (addr : Nat) (data : List Nat) : Nat → Nat :=
  fun a => if addr ≤ a ∧ a < addr + data.length then data.getD (a - addr) 0 else mem a

/-- Modelled from the spec: the `n` bytes stored from address `addr` on. -/
def nvmem_store_read (mem : Nat → Nat) (addr n : Nat) : List Nat :=
  (List.range n).map fun i => mem (addr + i)

/-- Modelled from the spec: the transport in front of the secure NVMEM
service, "a byte store that honours the NVMEM_WRITE and NVMEM_READ requests it
is sent".  A refused `connect` returns handle -1, an accepted one handle 1; a
failed `call` returns status -1 and touches nothing.  An accepted `NVMEM_WRITE`
stores the first `size` bytes of the second request vector at `base + offset`;
an accepted `NVMEM_READ` copies `size` bytes from `base + offset` into the
first response vector, within its capacity.  Requests of other services
succeed without effect. -/
def nvmemTransport : Transport NvmemService where
  connect := fun _ _ st =>
    (if st.refuse st.tick then -1 else 1, ⟨st.mem, st.refuse, st.tick + 1⟩)
  call := fun _ in_vec _ out_vec _ st =>
    if st.refuse st.tick then ((-1, []), ⟨st.mem, st.refuse, st.tick + 1⟩)
    else
      match in_vec with
      | ⟨Buf.nvmem_param p, _⟩ :: rest =>
        match p.nvmem_fn_type with
        | nvmem_fn_type_t.NVMEM_WRITE =>
          match rest with
          | ⟨Buf.bytes data, len⟩ :: _ =>
            ((PSA_SUCCESS, []),
              ⟨nvmem_store_write st.mem (p.base + p.offset)
                ((data.take len).take p.size.toNat), st.refuse, st.tick + 1⟩)
          | _ => ((-1, []), ⟨st.mem, st.refuse, st.tick + 1⟩)
        | nvmem_fn_type_t.NVMEM_READ =>
          match out_vec with
          | some (⟨buf, cap⟩ :: _) =>
            ((PSA_SUCCESS,
              [(nvmem_store_read st.mem (p.base + p.offset) p.size.toNat).take cap ++
                buf.drop (min cap p.size.toNat)]),
              ⟨st.mem, st.refuse, st.tick + 1⟩)
          | _ => ((-1, []), ⟨st.mem, st.refuse, st.tick + 1⟩)
      | _ => ((PSA_SUCCESS, []), ⟨st.mem, st.refuse, st.tick + 1⟩)
  close := fun _ st => st

/-- An NVMEM service whose store holds 255 everywhere and that refuses
nothing. -/
def blankNvmem : NvmemService := ⟨fun _ => 255, fun _ => false, 0⟩

/-! ## Theorems -/

/-- An `int` in range is left unchanged by the two's complement reduction. -/
theorem wrap_int_of_range (x : Int) (hlo : -2147483648 ≤ x) (hhi : x ≤ INT_MAX) :
    wrap_int x = x := by
  unfold wrap_int
  unfold INT_MAX at hhi
  omega

/-- A non-negative `int` converts to `size_t` without change. -/
theorem to_size_t_of_range (x : Int) (hlo : 0 ≤ x) (hhi : x ≤ INT_MAX) :
    to_size_t x = x.toNat := by
  unfold to_size_t
  unfold INT_MAX at hhi
  omega

/-- The status of every operation in terms of the two answers of the
transport. -/
theorem Op.status_eq {σ : Type} (T : Transport σ) (op : Op) (s : σ) :
    op.status T s =
      (if op.handle T s < 0 then pal_status_t.PAL_STATUS_ERROR
       else if op.call_status T s = PSA_SUCCESS then pal_status_t.PAL_STATUS_SUCCESS
       else pal_status_t.PAL_STATUS_ERROR) := by
  cases op <;>
    simp only [Op.status, Op.run, Op.sid, Op.handle, Op.call_status, Op.request, World.init,
      pal_uart_init_ns, pal_print_ns, pal_wd_timer_init_ns, pal_wd_timer_enable_ns,
      pal_wd_timer_disable_ns, pal_nvmem_read_ns, pal_nvmem_write_ns, pal_ipc_connect,
      pal_ipc_call, pal_ipc_close, psa_close] <;>
    split_ifs <;>
    simp_all

/-- The trace of every operation in terms of the two answers of the
transport: the `connect`, then, for a handle `>= 0`, the `call` with the
vectors of the operation, then the close event, which is missing only after
a failed `call` of `pal_uart_init_ns`. -/
theorem Op.trace_eq {σ : Type} (T : Transport σ) (op : Op) (s : σ) :
    op.trace T s =
      Event.connect op.sid 0 (op.handle T s) ::
        (if op.handle T s < 0 then []
         else Event.call (op.handle T s) op.request.in_vec op.request.in_len
            op.request.out_vec op.request.out_len (op.call_status T s) ::
          (if op.isUartInit = true ∧ op.call_status T s ≠ PSA_SUCCESS then []
           else [op.close_event (op.call_status T s) (op.handle T s)])) := by
  cases op <;>
    simp only [Op.trace, Op.run, Op.sid, Op.handle, Op.call_status, Op.request, Op.isUartInit,
      Op.close_event, World.init,
      pal_uart_init_ns, pal_print_ns, pal_wd_timer_init_ns, pal_wd_timer_enable_ns,
      pal_wd_timer_disable_ns, pal_nvmem_read_ns, pal_nvmem_write_ns, pal_ipc_connect,
      pal_ipc_call, pal_ipc_close, psa_close] <;>
    split_ifs <;>
    simp_all

/-- C2: when `connect` returns a negative handle, each of the seven operations
returns `PAL_STATUS_ERROR` and the transport sees that one `connect` and
nothing else: no `call`, no close. -/
theorem connect_failure_short_circuits {σ : Type} (T : Transport σ) (op : Op) (s : σ)
    (hneg : (T.connect op.sid 0 s).1 < 0) :
    op.status T s = pal_status_t.PAL_STATUS_ERROR ∧
    op.trace T s = [Event.connect op.sid 0 (T.connect op.sid 0 s).1] ∧
    callCount (op.trace T s) = 0 ∧ closeCount (op.trace T s) = 0 := by
  cases op <;>
    simp_all [Op.status, Op.trace, Op.run, Op.sid, World.init, pal_uart_init_ns, pal_print_ns,
      pal_wd_timer_init_ns, pal_wd_timer_enable_ns, pal_wd_timer_disable_ns,
      pal_nvmem_read_ns, pal_nvmem_write_ns, pal_ipc_connect, callCount, closeCount,
      Event.isCall, Event.isClose]

/-- Witness of C2: `pal_print_ns` on a transport that refuses the connection. -/
theorem connect_failure_short_circuits_witness :
    ((constTransport (-1) 0).connect (Op.print [104, 105] 7).sid 0 ()).1 < 0 ∧
    ((Op.print [104, 105] 7).status (constTransport (-1) 0) () = pal_status_t.PAL_STATUS_ERROR ∧
     (Op.print [104, 105] 7).trace (constTransport (-1) 0) () =
       [Event.connect (Op.print [104, 105] 7).sid 0
         ((constTransport (-1) 0).connect (Op.print [104, 105] 7).sid 0 ()).1] ∧
     callCount ((Op.print [104, 105] 7).trace (constTransport (-1) 0) ()) = 0 ∧
     closeCount ((Op.print [104, 105] 7).trace (constTransport (-1) 0) ()) = 0) :=
  ⟨by decide, connect_failure_short_circuits (constTransport (-1) 0) (Op.print [104, 105] 7) ()
    (by decide)⟩

/-- C3: the result of each of the seven operations is binary and decided by
the two answers of the transport alone.  With `h` the handle `T.connect`
returns for the service of the operation and `st` the status `T.call` returns
for `h` and the vectors of the operation: the operation returns
`PAL_STATUS_SUCCESS` if and only if `h >= 0` and `st = PSA_SUCCESS`, and
`PAL_STATUS_ERROR` otherwise, whatever other status `st` is; the `call` it
issues carries exactly those vectors.  In particular `pal_wd_timer_enable_ns`
returns `PAL_STATUS_SUCCESS` when `connect` succeeds and `call` returns
`PSA_SUCCESS`. -/
theorem status_decided_by_transport {σ : Type} (T : Transport σ) (op : Op) (s : σ) :
    op.status T s =
      (if (T.connect op.sid 0 s).1 < 0 then pal_status_t.PAL_STATUS_ERROR
       else if (T.call (T.connect op.sid 0 s).1 op.request.in_vec op.request.in_len
          op.request.out_vec op.request.out_len (T.connect op.sid 0 s).2).1.1 = PSA_SUCCESS
        then pal_status_t.PAL_STATUS_SUCCESS
       else pal_status_t.PAL_STATUS_ERROR) ∧
    (op.status T s = pal_status_t.PAL_STATUS_SUCCESS ↔
      0 ≤ (T.connect op.sid 0 s).1 ∧
      (T.call (T.connect op.sid 0 s).1 op.request.in_vec op.request.in_len
          op.request.out_vec op.request.out_len (T.connect op.sid 0 s).2).1.1 = PSA_SUCCESS) ∧
    (op.status T s = pal_status_t.PAL_STATUS_ERROR ↔
      ¬ (0 ≤ (T.connect op.sid 0 s).1 ∧
      (T.call (T.connect op.sid 0 s).1 op.request.in_vec op.request.in_len
          op.request.out_vec op.request.out_len (T.connect op.sid 0 s).2).1.1 = PSA_SUCCESS)) ∧
    requests (op.trace T s) = (if (T.connect op.sid 0 s).1 < 0 then [] else [op.request]) ∧
    callReturns (op.trace T s) =
      (if (T.connect op.sid 0 s).1 < 0 then []
       else [(T.call (T.connect op.sid 0 s).1 op.request.in_vec op.request.in_len
          op.request.out_vec op.request.out_len (T.connect op.sid 0 s).2).1.1]) ∧
    (∀ b, (Op.wd_timer_enable b).status T s =
      (if (T.connect Sid.DRIVER_WATCHDOG_SID 0 s).1 < 0 then pal_status_t.PAL_STATUS_ERROR
       else if (T.call (T.connect Sid.DRIVER_WATCHDOG_SID 0 s).1
          [⟨Buf.wd_param ⟨wd_fn_type_t.WD_ENABLE_SEQ, b, 0, 0⟩, sizeof_wd_param_t⟩] 1 none 0
          (T.connect Sid.DRIVER_WATCHDOG_SID 0 s).2).1.1 = PSA_SUCCESS
        then pal_status_t.PAL_STATUS_SUCCESS
       else pal_status_t.PAL_STATUS_ERROR)) := by
  have hs := Op.status_eq T op s
  have ht := Op.trace_eq T op s
  simp only [Op.handle, Op.call_status] at hs ht
  refine ⟨hs, ?_, ?_, ?_, ?_, fun b => ?_⟩
  · rw [hs]
    by_cases h1 : (T.connect op.sid 0 s).1 < 0
    · simp [h1, not_le.mpr h1]
    · by_cases h2 : (T.call (T.connect op.sid 0 s).1 op.request.in_vec op.request.in_len
          op.request.out_vec op.request.out_len (T.connect op.sid 0 s).2).1.1 = PSA_SUCCESS <;>
        simp [h1, h2, not_lt.mp h1]
  · rw [hs]
    by_cases h1 : (T.connect op.sid 0 s).1 < 0
    · simp [h1, not_le.mpr h1]
    · by_cases h2 : (T.call (T.connect op.sid 0 s).1 op.request.in_vec op.request.in_len
          op.request.out_vec op.request.out_len (T.connect op.sid 0 s).2).1.1 = PSA_SUCCESS <;>
        simp [h1, h2, not_lt.mp h1]
  · rw [ht]
    cases op <;> simp only [Op.close_event, Op.isUartInit] <;> split_ifs <;>
      simp [requests]
  · rw [ht]
    cases op <;> simp only [Op.close_event, Op.isUartInit] <;> split_ifs <;>
      simp [callReturns]
  · have hb := Op.status_eq T (Op.wd_timer_enable b) s
    simpa only [Op.handle, Op.call_status, Op.sid, Op.request] using hb

/-- Order of the primitives in the trace of each of the seven operations: its
first event is the one `connect` (to the service of the operation, version 0),
exactly one `connect` is issued, one `call` is issued when the handle is
`>= 0` and none otherwise (so never a second one), and the events are
strictly ordered by phase, so that no `call` precedes the `connect` and no
`call` follows a close. -/
theorem trace_connect_call_close {σ : Type} (T : Transport σ) (op : Op) (s : σ) :
    (op.trace T s).head? = some (Event.connect op.sid 0 (T.connect op.sid 0 s).1) ∧
    connectCount (op.trace T s) = 1 ∧
    callCount (op.trace T s) = (if (T.connect op.sid 0 s).1 < 0 then 0 else 1) ∧
    callCount (op.trace T s) ≤ 1 ∧
    (op.trace T s).Pairwise (fun a b => a.phase < b.phase) := by
  cases op <;>
    simp only [Op.status, Op.trace, Op.run, Op.sid, World.init, pal_uart_init_ns,
      pal_print_ns, pal_wd_timer_init_ns, pal_wd_timer_enable_ns, pal_wd_timer_disable_ns,
      pal_nvmem_read_ns, pal_nvmem_write_ns, pal_ipc_connect, pal_ipc_call, pal_ipc_close,
      psa_close] <;>
    split_ifs <;>
    simp_all [connectCount, callCount, Event.isConnect, Event.isCall, Event.phase]

/-- C4 (failing path, and the shape everywhere else): `pal_uart_init_ns` on
a transport whose `connect` returns handle 1 and whose `call` returns the
status -1 produces the trace connect, call and stops there, without the close
that the shape connect, then call, then close ends with.  For every transport,
state and operation the trace is the `connect`, then, when the handle is
`>= 0`, the one `call`, then one close event for that handle, the close being
absent only after a failed `call` of `pal_uart_init_ns`. -/
theorem uart_init_call_failure_trace_lacks_close :
    (Op.uart_init 0).trace (constTransport 1 (-1)) () =
      [Event.connect Sid.DRIVER_UART_SID 0 1,
       Event.call 1 [⟨Buf.uart_fn uart_fn_type_t.UART_INIT, 4⟩, ⟨Buf.u32 0, 4⟩, ⟨Buf.null, 0⟩]
         3 none 0 (-1)] ∧
    (∀ (σ : Type) (T : Transport σ) (op : Op) (s : σ),
      op.trace T s =
        Event.connect op.sid 0 (T.connect op.sid 0 s).1 ::
          (if (T.connect op.sid 0 s).1 < 0 then []
           else Event.call (T.connect op.sid 0 s).1 op.request.in_vec op.request.in_len
              op.request.out_vec op.request.out_len (op.call_status T s) ::
            (if op.isUartInit = true ∧ op.call_status T s ≠ PSA_SUCCESS then []
             else [op.close_event (op.call_status T s) (T.connect op.sid 0 s).1]))) ∧
    (∀ (op : Op) (st : psa_status_t) (h : psa_handle_t),
      (op.close_event st h).isClose = true ∧ closeHandles [op.close_event st h] = [h]) := by
  refine ⟨by decide, fun σ T op s => ?_, fun op st h => ?_⟩
  · have ht := Op.trace_eq T op s
    simpa only [Op.handle] using ht
  · cases op <;> simp only [Op.close_event] <;> (try split_ifs) <;>
      simp [Event.isClose, closeHandles]

/-- C1 (failing path): `pal_uart_init_ns` on a transport whose `connect`
returns handle 1 and whose `call` returns the status -1 returns
`PAL_STATUS_ERROR` after one `connect` and one `call`, and the close primitive
is never invoked on the handle it obtained. -/
theorem uart_init_call_failure_skips_close :
    (Op.uart_init 0).status (constTransport 1 (-1)) () = pal_status_t.PAL_STATUS_ERROR ∧
    connects ((Op.uart_init 0).trace (constTransport 1 (-1)) ()) =
      [(Sid.DRIVER_UART_SID, 0, 1)] ∧
    callReturns ((Op.uart_init 0).trace (constTransport 1 (-1)) ()) = [-1] ∧
    closeCount ((Op.uart_init 0).trace (constTransport 1 (-1)) ()) = 0 := by
  decide

/-- The close discipline on every path but the failing one of C1: whenever
`connect` returned a handle `>= 0`, the close primitive is invoked exactly
once, unless the operation is `pal_uart_init_ns` and its `call` failed, in
which case it is not invoked at all. -/
theorem close_count_of_connected {σ : Type} (T : Transport σ) (op : Op) (s : σ)
    (hpos : 0 ≤ (T.connect op.sid 0 s).1) :
    closeCount (op.trace T s) =
      (if op.isUartInit = true ∧ callReturns (op.trace T s) ≠ [PSA_SUCCESS]
        then 0 else 1) := by
  cases op <;>
    simp only [Op.status, Op.trace, Op.run, Op.sid, World.init, pal_uart_init_ns,
      pal_print_ns, pal_wd_timer_init_ns, pal_wd_timer_enable_ns, pal_wd_timer_disable_ns,
      pal_nvmem_read_ns, pal_nvmem_write_ns, pal_ipc_connect, pal_ipc_call, pal_ipc_close,
      psa_close] at hpos ⊢ <;>
    simp only [if_neg (not_lt.mpr hpos)] <;>
    split_ifs <;>
    simp_all [closeCount, callReturns, Event.isClose, Op.isUartInit]

/-- C10: each of the seven operations issues its one `connect` to its own
service with version 0 (`Op.sid`: UART for `pal_uart_init_ns` and
`pal_print_ns`, watchdog for the three watchdog operations, NVMEM for the two
nvmem operations), and the handle given to `call` and to close is the value
that `connect` returned; every value `>= 0`, zero included, is used for the
`call`, and for the close wherever the operation closes (everywhere but after
a failed `call` of `pal_uart_init_ns`). -/
theorem handle_and_service_fidelity {σ : Type} (T : Transport σ) (op : Op) (s : σ) :
    connects (op.trace T s) = [(op.sid, 0, (T.connect op.sid 0 s).1)] ∧
    callHandles (op.trace T s) =
      (if (T.connect op.sid 0 s).1 < 0 then [] else [(T.connect op.sid 0 s).1]) ∧
    (∀ h ∈ closeHandles (op.trace T s), h = (T.connect op.sid 0 s).1) ∧
    closeHandles (op.trace T s) =
      (if (T.connect op.sid 0 s).1 < 0 ∨
          (op.isUartInit = true ∧ callReturns (op.trace T s) ≠ [PSA_SUCCESS])
        then [] else [(T.connect op.sid 0 s).1]) ∧
    (op.sid = Sid.DRIVER_UART_SID ↔ (∃ a, op = Op.uart_init a) ∨ ∃ str d, op = Op.print str d) ∧
    (op.sid = Sid.DRIVER_WATCHDOG_SID ↔ (∃ b t k, op = Op.wd_timer_init b t k) ∨
      (∃ b, op = Op.wd_timer_enable b) ∨ ∃ b, op = Op.wd_timer_disable b) ∧
    (op.sid = Sid.DRIVER_NVMEM_SID ↔ (∃ b o buf n, op = Op.nvmem_read b o buf n) ∨
      ∃ b o buf n, op = Op.nvmem_write b o buf n) := by
  refine ⟨?_, ?_, ?_, ?_, ?_, ?_, ?_⟩
  · cases op <;>
      simp only [Op.trace, Op.run, Op.sid, World.init, pal_uart_init_ns,
        pal_print_ns, pal_wd_timer_init_ns, pal_wd_timer_enable_ns, pal_wd_timer_disable_ns,
        pal_nvmem_read_ns, pal_nvmem_write_ns, pal_ipc_connect, pal_ipc_call, pal_ipc_close,
        psa_close] <;>
      split_ifs <;>
      simp [connects]
  · cases op <;>
      simp only [Op.trace, Op.run, Op.sid, World.init, pal_uart_init_ns,
        pal_print_ns, pal_wd_timer_init_ns, pal_wd_timer_enable_ns, pal_wd_timer_disable_ns,
        pal_nvmem_read_ns, pal_nvmem_write_ns, pal_ipc_connect, pal_ipc_call, pal_ipc_close,
        psa_close] <;>
      split_ifs <;>
      simp [callHandles]
  · cases op <;>
      simp only [Op.trace, Op.run, Op.sid, World.init, pal_uart_init_ns,
        pal_print_ns, pal_wd_timer_init_ns, pal_wd_timer_enable_ns, pal_wd_timer_disable_ns,
        pal_nvmem_read_ns, pal_nvmem_write_ns, pal_ipc_connect, pal_ipc_call, pal_ipc_close,
        psa_close] <;>
      split_ifs <;>
      simp [closeHandles]
  · by_cases hneg : (T.connect op.sid 0 s).1 < 0 <;>
      cases op <;>
      simp only [Op.sid] at hneg <;>
      simp only [Op.trace, Op.run, Op.sid, World.init, pal_uart_init_ns,
        pal_print_ns, pal_wd_timer_init_ns, pal_wd_timer_enable_ns, pal_wd_timer_disable_ns,
        pal_nvmem_read_ns, pal_nvmem_write_ns, pal_ipc_connect, pal_ipc_call, pal_ipc_close,
        psa_close, hneg, if_true, if_false, true_or, false_or, Op.isUartInit] <;>
      (try split_ifs) <;>
      simp_all [closeHandles, callReturns]
  · cases op <;> simp [Op.sid]
  · cases op <;> simp [Op.sid]
  · cases op <;> simp [Op.sid]

/-- C5: in each of the seven operations the first request vector of the one
`call` points at the object that carries the discriminator of exactly that
operation (`Op.tag`: the `uart_fn_type_t` tag for the UART operations, the
`wd_fn_type` field of the `wd_param_t` for the watchdog operations, the
`nvmem_fn_type` field of the `nvmem_param_t` for the nvmem operations), and
its length is the size of that object: the tag, or the whole structure. -/
theorem first_vector_carries_discriminator {σ : Type} (T : Transport σ) (op : Op) (s : σ) :
    (requests (op.trace T s)).length = (if (T.connect op.sid 0 s).1 < 0 then 0 else 1) ∧
    ∀ r ∈ requests (op.trace T s), ∃ v, r.in_vec.head? = some v ∧
      v.base.tag = some op.tag ∧ v.base.object_size = some v.len ∧
      v.len = op.tag.carrier_size := by
  cases op <;>
    simp only [Op.status, Op.trace, Op.run, Op.sid, World.init, pal_uart_init_ns,
      pal_print_ns, pal_wd_timer_init_ns, pal_wd_timer_enable_ns, pal_wd_timer_disable_ns,
      pal_nvmem_read_ns, pal_nvmem_write_ns, pal_ipc_connect, pal_ipc_call, pal_ipc_close,
      psa_close] <;>
    split_ifs <;>
    simp_all [requests, Buf.tag, Buf.object_size, Op.tag, Tag.carrier_size]

/-- C9: in each of the seven operations the counts given to the one `call`
agree with the arrays built: the request count is between 1 and 3 and equals
the number of elements of the request array (`Op.in_count`: 3 for the two UART
operations, 1 for the watchdog operations and `pal_nvmem_read_ns`, 2 for
`pal_nvmem_write_ns`); the response count equals the number of elements of the
response array, which is 0 with a null array except for `pal_nvmem_read_ns`,
where it is 1 with a one-element array. -/
theorem vector_counts_match_arrays {σ : Type} (T : Transport σ) (op : Op) (s : σ) :
    (requests (op.trace T s)).length = (if (T.connect op.sid 0 s).1 < 0 then 0 else 1) ∧
    ∀ r ∈ requests (op.trace T s),
      1 ≤ r.in_len ∧ r.in_len ≤ 3 ∧ r.in_len = r.in_vec.length ∧ r.in_len = op.in_count ∧
      r.out_len = out_vec_length r.out_vec ∧ r.out_len = op.out_count ∧
      (r.out_vec = none ↔ op.out_count = 0) := by
  cases op <;>
    simp only [Op.status, Op.trace, Op.run, Op.sid, World.init, pal_uart_init_ns,
      pal_print_ns, pal_wd_timer_init_ns, pal_wd_timer_enable_ns, pal_wd_timer_disable_ns,
      pal_nvmem_read_ns, pal_nvmem_write_ns, pal_ipc_connect, pal_ipc_call, pal_ipc_close,
      psa_close] <;>
    split_ifs <;>
    simp_all [requests, Op.in_count, Op.out_count, out_vec_length]

/-- C8: for every `base`, `offset`, `buffer` and every `int` `size >= 0`, the
two nvmem operations pass the arguments on unchanged.  `pal_nvmem_read_ns`
gives `call` one request vector, the structure `{NVMEM_READ, base, offset,
size}`, and one response vector `(buffer, size)`; `pal_nvmem_write_ns` gives
two request vectors, the structure `{NVMEM_WRITE, base, offset, size}` and
`(buffer, size)`, and a null response array.  The two structures differ in the
discriminator only, and the `size` field equals the length of the data
vector. -/
theorem nvmem_marshalling {σ : Type} (T : Transport σ) (base offset : Nat)
    (buffer : List Nat) (size : Int) (s : σ) (h0 : 0 ≤ size) (hmax : size ≤ INT_MAX) :
    requests ((Op.nvmem_read base offset buffer size).trace T s) =
      (if (T.connect Sid.DRIVER_NVMEM_SID 0 s).1 < 0 then []
       else [⟨[⟨Buf.nvmem_param ⟨nvmem_fn_type_t.NVMEM_READ, base, offset, size⟩,
                sizeof_nvmem_param_t⟩],
              1, some [⟨buffer, size.toNat⟩], 1⟩]) ∧
    requests ((Op.nvmem_write base offset buffer size).trace T s) =
      (if (T.connect Sid.DRIVER_NVMEM_SID 0 s).1 < 0 then []
       else [⟨[⟨Buf.nvmem_param ⟨nvmem_fn_type_t.NVMEM_WRITE, base, offset, size⟩,
                sizeof_nvmem_param_t⟩,
               ⟨Buf.bytes buffer, size.toNat⟩],
              2, none, 0⟩]) ∧
    ((size.toNat : Int) = size) := by
  have hsz : to_size_t size = size.toNat := to_size_t_of_range size h0 hmax
  refine ⟨?_, ?_, Int.toNat_of_nonneg h0⟩ <;>
    simp only [Op.trace, Op.run, World.init, pal_nvmem_read_ns, pal_nvmem_write_ns,
      pal_ipc_connect, pal_ipc_call, pal_ipc_close, psa_close, hsz] <;>
    split_ifs <;>
    simp [requests]

/-- Witness of C8: three bytes at base 4096, offset 4. -/
theorem nvmem_marshalling_witness :
    ((0 : Int) ≤ 3 ∧ (3 : Int) ≤ INT_MAX) ∧
    (requests ((Op.nvmem_read 4096 4 [0, 0, 0] 3).trace (constTransport 1 0) ()) =
      (if ((constTransport 1 0).connect Sid.DRIVER_NVMEM_SID 0 ()).1 < 0 then []
       else [⟨[⟨Buf.nvmem_param ⟨nvmem_fn_type_t.NVMEM_READ, 4096, 4, 3⟩,
                sizeof_nvmem_param_t⟩],
              1, some [⟨[0, 0, 0], (3 : Int).toNat⟩], 1⟩]) ∧
    requests ((Op.nvmem_write 4096 4 [0, 0, 0] 3).trace (constTransport 1 0) ()) =
      (if ((constTransport 1 0).connect Sid.DRIVER_NVMEM_SID 0 ()).1 < 0 then []
       else [⟨[⟨Buf.nvmem_param ⟨nvmem_fn_type_t.NVMEM_WRITE, 4096, 4, 3⟩,
                sizeof_nvmem_param_t⟩,
               ⟨Buf.bytes [0, 0, 0], (3 : Int).toNat⟩],
              2, none, 0⟩]) ∧
    (((3 : Int).toNat : Int) = 3)) :=
  ⟨⟨by decide, by decide⟩,
    nvmem_marshalling (constTransport 1 0) 4096 4 [0, 0, 0] 3 () (by decide) (by decide)⟩

/-- Reading back the bytes just written at the same address returns them. -/
theorem nvmem_store_read_write (mem : Nat → Nat) (addr : Nat) (data : List Nat) :
    nvmem_store_read (nvmem_store_write mem addr data) addr data.length = data := by
  apply List.ext_getElem
  · simp [nvmem_store_read]
  · intro i h1 h2
    simp [nvmem_store_read, nvmem_store_write, h2, List.getD_eq_getElem]

/-- A successful `pal_nvmem_write_ns` leaves the source bytes in the store. -/
theorem nvmem_write_success_store (base offset : Nat) (src : List Nat) (size : Int)
    (w : World NvmemService) (h0 : 0 ≤ size) (hmax : size ≤ INT_MAX)
    (hsrc : src.length = size.toNat)
    (hw : (pal_nvmem_write_ns nvmemTransport base offset src size w).1 =
      pal_status_t.PAL_STATUS_SUCCESS) :
    (pal_nvmem_write_ns nvmemTransport base offset src size w).2.st.mem =
      nvmem_store_write w.st.mem (base + offset) src := by
  have hsz : to_size_t size = size.toNat := to_size_t_of_range size h0 hmax
  have htk : List.take size.toNat src = src := by
    rw [← hsrc]
    exact List.take_length src
  by_cases h1 : w.st.refuse w.st.tick = true <;>
    by_cases h2 : w.st.refuse (w.st.tick + 1) = true <;>
    simp [pal_nvmem_write_ns, pal_ipc_connect, pal_ipc_call, pal_ipc_close,
      nvmemTransport, PSA_SUCCESS, h1, h2, hsz, htk] at hw ⊢

/-- A successful `pal_nvmem_read_ns` leaves the stored bytes in the buffer. -/
theorem nvmem_read_success_buffer (base offset : Nat) (dst : List Nat) (size : Int)
    (w : World NvmemService) (h0 : 0 ≤ size) (hmax : size ≤ INT_MAX)
    (hr : (pal_nvmem_read_ns nvmemTransport base offset dst size w).1 =
      pal_status_t.PAL_STATUS_SUCCESS) :
    (pal_nvmem_read_ns nvmemTransport base offset dst size w).2.1 =
      nvmem_store_read w.st.mem (base + offset) size.toNat ++ dst.drop size.toNat := by
  have hsz : to_size_t size = size.toNat := to_size_t_of_range size h0 hmax
  have htk : ∀ m : Nat → Nat, List.take size.toNat
      (nvmem_store_read m (base + offset) size.toNat) =
      nvmem_store_read m (base + offset) size.toNat := by
    intro m
    apply List.take_of_length_le
    simp [nvmem_store_read]
  by_cases h1 : w.st.refuse w.st.tick = true <;>
    by_cases h2 : w.st.refuse (w.st.tick + 1) = true <;>
    simp [pal_nvmem_read_ns, pal_ipc_connect, pal_ipc_call, pal_ipc_close, psa_close,
      nvmemTransport, PSA_SUCCESS, h1, h2, hsz, htk] at hr ⊢

/-- C6: round trip of the nvmem pair over the byte-store model of the secure
service, whatever requests the transport refuses: for every `base`, `offset`,
`int` `size >= 0` and source buffer of `size` bytes, if `pal_nvmem_write_ns`
returns `PAL_STATUS_SUCCESS` and the `pal_nvmem_read_ns` that follows it with
the same `base`, `offset` and `size` returns `PAL_STATUS_SUCCESS`, then the
first `size` bytes of the destination buffer are the source bytes. -/
theorem nvmem_write_read_round_trip (base offset : Nat) (src dst : List Nat) (size : Int)
    (st : NvmemService) (h0 : 0 ≤ size) (hmax : size ≤ INT_MAX)
    (hsrc : src.length = size.toNat)
    (hw : (pal_nvmem_write_ns nvmemTransport base offset src size (World.init st)).1 =
      pal_status_t.PAL_STATUS_SUCCESS)
    (hr : (pal_nvmem_read_ns nvmemTransport base offset dst size
        (pal_nvmem_write_ns nvmemTransport base offset src size (World.init st)).2).1 =
      pal_status_t.PAL_STATUS_SUCCESS) :
    (pal_nvmem_read_ns nvmemTransport base offset dst size
        (pal_nvmem_write_ns nvmemTransport base offset src size (World.init st)).2).2.1.take
      size.toNat = src := by
  rw [nvmem_read_success_buffer base offset dst size _ h0 hmax hr,
    nvmem_write_success_store base offset src size _ h0 hmax hsrc hw, ← hsrc,
    nvmem_store_read_write, List.take_left]

/-- Witness of C6: three bytes written at base 4096, offset 4, and read back. -/
theorem nvmem_write_read_round_trip_witness :
    ((0 : Int) ≤ 3 ∧ (3 : Int) ≤ INT_MAX ∧ ([17, 34, 51] : List Nat).length = (3 : Int).toNat ∧
      (pal_nvmem_write_ns nvmemTransport 4096 4 [17, 34, 51] 3 (World.init blankNvmem)).1 =
        pal_status_t.PAL_STATUS_SUCCESS ∧
      (pal_nvmem_read_ns nvmemTransport 4096 4 [0, 0, 0] 3
        (pal_nvmem_write_ns nvmemTransport 4096 4 [17, 34, 51] 3 (World.init blankNvmem)).2).1 =
        pal_status_t.PAL_STATUS_SUCCESS) ∧
    (pal_nvmem_read_ns nvmemTransport 4096 4 [0, 0, 0] 3
        (pal_nvmem_write_ns nvmemTransport 4096 4 [17, 34, 51] 3
          (World.init blankNvmem)).2).2.1.take (3 : Int).toNat = [17, 34, 51] :=
  ⟨⟨by decide, by decide, by decide, by decide, by decide⟩,
    nvmem_write_read_round_trip 4096 4 [17, 34, 51] [0, 0, 0] 3 blankNvmem (by decide)
      (by decide) (by decide) (by decide) (by decide)⟩

end PalDriverNs
